import Mathlib

/-!
Verification development for the translator app (`src/app.py`).

The program is a small translation front-end built around two helper
functions, `translate_text` (app.py lines 40-59) and `translate_dataframe`
(app.py lines 61-70), plus a session history kept by the UI code
(app.py lines 93-111).  This file gives a shallow embedding of those
functions and proves the specified properties about them.

Modelling decisions:
* A translation backend (the `deep_translator` clients `GoogleTranslator`
  and `LibreTranslator`) is an external collaborator.  It is modelled as a
  function from (source code, target code, text) to `Except String String`:
  `Except.error e` models the client raising an exception whose string
  description is `e` (construction and `.translate` failures are folded
  into one call, since the Python `try` block covers both), and
  `Except.ok r` models a successful translation returning `r`.
* Python's `if not text:` test on a string is true exactly for the empty
  string, so it is embedded as `text = ""`.
* A pandas DataFrame is modelled as an ordered association list of
  (column name, list of cell values); a cell is `Option String`, with
  `none` standing for a missing value (NaN).  Column assignment
  `out[name] = vals` overwrites an existing column in place and otherwise
  appends the new column at the end, as pandas does.
* `Series.astype(str)` applies Python `str()` elementwise; `str` of a
  missing value (NaN) is the string `"nan"`.  Consequently a subsequent
  `.fillna("")` on the resulting all-string column replaces nothing.
* To make claims about *which* backend calls happen observable, the
  instrumented embedding `translate_text_instr` also returns the list of
  (source, target, text) argument triples passed to each backend, in call
  order; `translate_text` is its result component.
-/

namespace TranslatorApp

/-- A translation backend: given a source-language code, a target-language
code and a text, either returns the translated text or fails with an error
description (modelling a raised exception). -/
abbrev Backend := String → String → String → Except String String

/-- The static language dictionary (app.py lines 14-37), display name to
ISO-like code. -/
def LANGS : List (String × String) :=
  [("Auto-detect", "auto"),
   ("English", "en"),
   ("Urdu", "ur"),
   ("Arabic", "ar"),
   ("Bengali", "bn"),
   ("Chinese (Simplified)", "zh-CN"),
   ("Chinese (Traditional)", "zh-TW"),
   ("French", "fr"),
   ("German", "de"),
   ("Hindi", "hi"),
   ("Indonesian", "id"),
   ("Italian", "it"),
   ("Japanese", "ja"),
   ("Korean", "ko"),
   ("Malay", "ms"),
   ("Persian (Farsi)", "fa"),
   ("Portuguese", "pt"),
   ("Russian", "ru"),
   ("Spanish", "es"),
   ("Turkish", "tr"),
   ("Vietnamese", "vi")]

/-- The source-language argument handed to each backend constructor
(app.py lines 50 and 55): `src if src != "auto" else "auto"`.
Both branches of the Python conditional expression yield `src`. -/
def norm_src (src : String) : String :=
  if src ≠ "auto" then src else "auto"

/-- Instrumented embedding of `translate_text` (app.py lines 40-59).
Returns the result string together with the list of (source, target, text)
argument triples passed to the primary (`GoogleTranslator`) and secondary
(`LibreTranslator`) backends, in call order.

Control flow of the source: if `not text`, return `""` (no backend call);
otherwise try the primary backend; on exception `e`, try the secondary
backend; on exception `e2`, return the f-string
`"[Translation failed: {e} | fallback failed: {e2}]"`. -/
def translate_text_instr (google libre : Backend) (text src tgt : String) :
    String × List (String × String × String) × List (String × String × String) :=
  if text = "" then
    ("", ([], []))
  else
    match google (norm_src src) tgt text with
    | Except.ok r => (r, ([(norm_src src, tgt, text)], []))
    | Except.error e =>
      match libre (norm_src src) tgt text with
      | Except.ok r =>
          (r, ([(norm_src src, tgt, text)], [(norm_src src, tgt, text)]))
      | Except.error e2 =>
          ("[Translation failed: " ++ e ++ " | fallback failed: " ++ e2 ++ "]",
            ([(norm_src src, tgt, text)], [(norm_src src, tgt, text)]))

/-- `translate_text` (app.py lines 40-59): the returned string of the
instrumented embedding. -/
def translate_text (google libre : Backend) (text src tgt : String) : String :=
  (translate_text_instr google libre text src tgt).1

/-- The argument triples passed to the primary backend during a
`translate_text` call. -/
def google_calls (google libre : Backend) (text src tgt : String) :
    List (String × String × String) :=
  (translate_text_instr google libre text src tgt).2.1

/-- The argument triples passed to the secondary (fallback) backend during a
`translate_text` call. -/
def libre_calls (google libre : Backend) (text src tgt : String) :
    List (String × String × String) :=
  (translate_text_instr google libre text src tgt).2.2

/-- A cell of a DataFrame column: `none` models a missing value (NaN). -/
abbrev Cell := Option String

/-- A pandas DataFrame, modelled as an ordered association list of
(column name, column values). -/
structure DataFrame where
  cols : List (String × List Cell)
deriving DecidableEq, Repr

/-- Column selection `df[name]`: the values of the first column named
`name`, or `none` when no such column exists (pandas raises `KeyError`). -/
def DataFrame.getCol (df : DataFrame) (name : String) : Option (List Cell) :=
  (df.cols.find? (fun p => p.1 == name)).map Prod.snd

/-- Whether `df` has a column named `name`. -/
def DataFrame.hasCol (df : DataFrame) (name : String) : Bool :=
  df.cols.any (fun p => p.1 == name)

/-- The number of rows of `df`: the length of its first column
(0 for a frame with no columns). -/
def DataFrame.numRows (df : DataFrame) : Nat :=
  match df.cols with
  | [] => 0
  | c :: _ => c.2.length

/-- Well-formedness of a DataFrame: every column has the same length. -/
def DataFrame.Wf (df : DataFrame) : Prop :=
  ∀ p ∈ df.cols, p.2.length = df.numRows

/-- Python `str()` of a cell value: the string itself for a present value,
and `"nan"` for a missing value (Python `str(float("nan")) = "nan"`). -/
def pyStr (c : Cell) : String :=
  match c with
  | some s => s
  | none => "nan"

/-- `Series.astype(str)` (app.py line 67): elementwise Python `str()`.
A missing value (NaN) becomes the string `"nan"`. -/
def astype_str (cells : List Cell) : List String :=
  cells.map pyStr

/-- `.fillna("")` applied after `.astype(str)` (app.py line 67): the column
already contains only strings, no missing values remain, so nothing is
replaced. -/
def fillna_empty (vals : List String) : List String :=
  vals

/-- Column assignment `cols[name] = vals` (app.py line 69): overwrite an
existing column of that name in place, otherwise append the new column at
the end. -/
def setCols (cols : List (String × List Cell)) (name : String) (vals : List Cell) :
    List (String × List Cell) :=
  if cols.any (fun p => p.1 == name) then
    cols.map (fun p => if p.1 == name then (name, vals) else p)
  else
    cols ++ [(name, vals)]

/-- `translate_dataframe` (app.py lines 61-70), with explicit state passing
for the input frame.  `out = df.copy()` makes `out` an independent copy of
`df`; every subsequent statement assigns only to `out`.  The result is
`some (returned frame, final state of the input frame)`, or `none` when the
chosen column is absent (`out[column]` raises `KeyError`). -/
def translate_dataframe_mut (google libre : Backend) (df : DataFrame)
    (column src tgt : String) : Option (DataFrame × DataFrame) :=
  let out := df
  match out.getCol column with
  | none => none
  | some cells =>
    let translated :=
      (fillna_empty (astype_str cells)).map
        (fun val => translate_text google libre val src tgt)
    let out := DataFrame.mk (setCols out.cols (column ++ "_translated") (translated.map some))
    some (out, df)

/-- `translate_dataframe` (app.py lines 61-70): the returned frame. -/
def translate_dataframe (google libre : Backend) (df : DataFrame)
    (column src tgt : String) : Option DataFrame :=
  (translate_dataframe_mut google libre df column src tgt).map Prod.fst

/-- Python `not s.strip()` (app.py line 94): true exactly when the string
consists only of whitespace characters (in particular, when it is empty). -/
def is_blank (s : String) : Bool :=
  s.data.all Char.isWhitespace

/-- A session history entry (app.py line 103). -/
structure HistoryEntry where
  source : String
  translated : String
  src : String
  tgt : String
deriving DecidableEq, Repr

/-- The UI actions that touch the session history. -/
inductive UIEvent where
  | translateClick (input : String)
  | clearHistoryClick
deriving DecidableEq

/-- One step of the session-history state machine (app.py lines 93-104 and
110-111).  On a Translate click: if the input is empty after stripping, a
warning is shown and the history is unchanged (line 94); otherwise the text
is translated with the selected language codes and one entry holding the
source text, the result, and the selected language names is inserted at
index 0 of the history (lines 98-104).  On a Clear-history click the
history becomes the empty list (line 111). -/
def ui_step (google libre : Backend) (srcLangName tgtLangName srcCode tgtCode : String)
    (history : List HistoryEntry) : UIEvent → List HistoryEntry
  | UIEvent.translateClick input =>
      if is_blank input then
        history
      else
        let result := translate_text google libre input srcCode tgtCode
        { source := input, translated := result,
          src := srcLangName, tgt := tgtLangName } :: history
  | UIEvent.clearHistoryClick => []

/-- The specified contents of the new column: row `i` holds
`resolve(str(table[i][column]), src, tgt)` — the resolver applied to the
Python string representation of the cell. -/
def translated_col (google libre : Backend) (src tgt : String) (cells : List Cell) :
    List Cell :=
  cells.map (fun c => some (translate_text google libre (pyStr c) src tgt))

/-- A backend stub that always succeeds with a fixed output. -/
def okBackend (out : String) : Backend := fun _ _ _ => Except.ok out

/-- A backend stub that always fails with a fixed error description. -/
def failBackend (msg : String) : Backend := fun _ _ _ => Except.error msg

/-- A backend stub that succeeds, echoing its text argument inside markers,
so that the text actually passed to the backend is observable in the
output. -/
def echoBackend : Backend := fun _ _ text => Except.ok ("<" ++ text ++ ">")

/-- A concrete frame that already contains the column `"a_translated"`. -/
def dfPre : DataFrame :=
  DataFrame.mk [("a", [some "x"]), ("a_translated", [some "y"])]

/-- A concrete one-row frame whose only cell is a missing value (NaN). -/
def dfNaN : DataFrame :=
  DataFrame.mk [("a", [none])]

/-- A concrete two-column, one-row frame with no missing values. -/
def dfTwo : DataFrame :=
  DataFrame.mk [("a", [some "hi"]), ("b", [some "z"])]

/-! ### Basic lemmas about the scalar resolver -/

theorem norm_src_eq (src : String) : norm_src src = src := by
  by_cases h : src = "auto" <;> simp [norm_src, h]

/-- If the primary backend fails and the fallback also fails, the resolver
returns the labeled error-marker string built at app.py line 59. -/
theorem translate_text_marker (google libre : Backend) (text src tgt e e2 : String)
    (htext : text ≠ "") (hg : google src tgt text = Except.error e)
    (hl : libre src tgt text = Except.error e2) :
    translate_text google libre text src tgt
      = "[Translation failed: " ++ e ++ " | fallback failed: " ++ e2 ++ "]" := by
  simp [translate_text, translate_text_instr, htext, norm_src_eq, hg, hl]

/-- The error-marker string is never the empty string. -/
theorem marker_ne_empty (e e2 : String) :
    ("[Translation failed: " ++ e ++ " | fallback failed: " ++ e2 ++ "]") ≠ "" := by
  intro h
  have hd := congrArg String.data h
  simp [String.data_append] at hd

/-! ### Claim theorems about the scalar resolver -/

/-- C1: for every input text and every language pair, if both the primary
and the secondary backend raise (which presupposes that the text is
non-empty, since otherwise no backend is invoked), `translate_text` returns
a single non-empty error-marker string embedding both captured error
descriptions, labeled as primary failure (`Translation failed`) and
fallback failure (`fallback failed`).  It never raises: the embedding is a
total function from inputs to strings, because every backend failure is
caught in the source. -/
theorem translate_text_both_fail (google libre : Backend) (text src tgt e e2 : String)
    (htext : text ≠ "") (hg : google src tgt text = Except.error e)
    (hl : libre src tgt text = Except.error e2) :
    translate_text google libre text src tgt
      = "[Translation failed: " ++ e ++ " | fallback failed: " ++ e2 ++ "]"
    ∧ translate_text google libre text src tgt ≠ "" := by
  have hm := translate_text_marker google libre text src tgt e e2 htext hg hl
  exact ⟨hm, hm ▸ marker_ne_empty e e2⟩

theorem translate_text_both_fail_witness :
    translate_text (failBackend "quota exceeded") (failBackend "service down")
        "Hello" "en" "es"
      = "[Translation failed: quota exceeded | fallback failed: service down]"
    ∧ translate_text (failBackend "quota exceeded") (failBackend "service down")
        "Hello" "en" "es" ≠ "" := by
  have h := translate_text_both_fail (failBackend "quota exceeded")
    (failBackend "service down") "Hello" "en" "es" "quota exceeded" "service down"
    (by decide) rfl rfl
  exact ⟨by rw [h.1]; rfl, h.2⟩

/-- C2: for every non-empty input text on which the primary backend
succeeds, `translate_text` returns exactly the primary backend's output,
unmodified, and the secondary backend is never invoked (its recorded call
list is empty). -/
theorem translate_text_primary_ok (google libre : Backend) (text src tgt r : String)
    (htext : text ≠ "") (hg : google src tgt text = Except.ok r) :
    translate_text google libre text src tgt = r
    ∧ libre_calls google libre text src tgt = [] := by
  constructor <;>
    simp [translate_text, libre_calls, translate_text_instr, htext, norm_src_eq, hg]

theorem translate_text_primary_ok_witness :
    translate_text (okBackend "Hola") (failBackend "unused") "Hello" "en" "es" = "Hola"
    ∧ libre_calls (okBackend "Hola") (failBackend "unused") "Hello" "en" "es" = [] :=
  translate_text_primary_ok (okBackend "Hola") (failBackend "unused")
    "Hello" "en" "es" "Hola" (by decide) rfl

/-- C3: for every non-empty input text on which the primary backend raises
and the secondary backend succeeds, `translate_text` invokes the secondary
backend exactly once, with the same (source, target, text) argument triple
as the primary attempt, and returns exactly the secondary backend's
output. -/
theorem translate_text_fallback_ok (google libre : Backend) (text src tgt e r : String)
    (htext : text ≠ "") (hg : google src tgt text = Except.error e)
    (hl : libre src tgt text = Except.ok r) :
    translate_text google libre text src tgt = r
    ∧ libre_calls google libre text src tgt = google_calls google libre text src tgt
    ∧ libre_calls google libre text src tgt = [(src, tgt, text)] := by
  refine ⟨?_, ?_, ?_⟩ <;>
    simp [translate_text, libre_calls, google_calls, translate_text_instr,
      htext, norm_src_eq, hg, hl]

theorem translate_text_fallback_ok_witness :
    translate_text (failBackend "quota exceeded") (okBackend "Hola") "Hello" "en" "es" = "Hola"
    ∧ libre_calls (failBackend "quota exceeded") (okBackend "Hola") "Hello" "en" "es"
        = google_calls (failBackend "quota exceeded") (okBackend "Hola") "Hello" "en" "es"
    ∧ libre_calls (failBackend "quota exceeded") (okBackend "Hola") "Hello" "en" "es"
        = [("en", "es", "Hello")] :=
  translate_text_fallback_ok (failBackend "quota exceeded") (okBackend "Hola")
    "Hello" "en" "es" "quota exceeded" "Hola" (by decide) rfl rfl

/-- C4 counterexample: the source short-circuits only on the *empty* string
(`if not text:` at app.py line 46), not on whitespace-only text.  For the
whitespace-only input `" "`, with a primary backend stub returning `"X"`,
`translate_text` returns `"X"` (not `""`) and the primary backend is
invoked (its recorded call list is non-empty), refuting the claim that
every whitespace-only input yields `""` with no backend call. -/
theorem translate_text_whitespace_cex :
    is_blank " " = true
    ∧ (" " : String) ≠ ""
    ∧ translate_text (okBackend "X") (okBackend "X") " " "auto" "en" = "X"
    ∧ google_calls (okBackend "X") (okBackend "X") " " "auto" "en"
        = [("auto", "en", " ")] := by
  refine ⟨by decide, by decide, ?_, ?_⟩ <;>
    simp [translate_text, google_calls, translate_text_instr, norm_src_eq, okBackend]

/-- C4 amended: for every *empty* input text, `translate_text` returns the
empty string immediately and invokes neither backend (both recorded call
lists are empty).  Whitespace-only but non-empty text is not
short-circuited; it is passed to the primary backend. -/
theorem translate_text_empty (google libre : Backend) (text src tgt : String)
    (h : text = "") :
    translate_text google libre text src tgt = ""
    ∧ google_calls google libre text src tgt = []
    ∧ libre_calls google libre text src tgt = [] := by
  subst h
  refine ⟨?_, ?_, ?_⟩ <;>
    simp [translate_text, google_calls, libre_calls, translate_text_instr]

theorem translate_text_empty_witness :
    translate_text (okBackend "X") (okBackend "X") "" "en" "es" = ""
    ∧ google_calls (okBackend "X") (okBackend "X") "" "en" "es" = []
    ∧ libre_calls (okBackend "X") (okBackend "X") "" "en" "es" = [] :=
  translate_text_empty (okBackend "X") (okBackend "X") "" "en" "es" rfl

/-- C9: whenever both backends fail (on a non-empty input, so that the
backends are actually invoked), the string returned by `translate_text`
begins with the literal prefix `"[Translation failed: "` and ends with
`"]"`, stated on the character lists of the strings. -/
theorem translate_text_error_marker_shape (google libre : Backend)
    (text src tgt e e2 : String)
    (htext : text ≠ "") (hg : google src tgt text = Except.error e)
    (hl : libre src tgt text = Except.error e2) :
    ("[Translation failed: ").data <+: (translate_text google libre text src tgt).data
    ∧ ("]").data <:+ (translate_text google libre text src tgt).data := by
  rw [translate_text_marker google libre text src tgt e e2 htext hg hl]
  constructor
  · simp only [String.data_append, List.append_assoc]
    exact List.prefix_append _ _
  · simp only [String.data_append]
    exact List.suffix_append _ _

theorem translate_text_error_marker_shape_witness :
    ("[Translation failed: ").data
        <+: (translate_text (failBackend "quota exceeded") (failBackend "service down")
              "Hello" "en" "es").data
    ∧ ("]").data
        <:+ (translate_text (failBackend "quota exceeded") (failBackend "service down")
              "Hello" "en" "es").data :=
  translate_text_error_marker_shape (failBackend "quota exceeded")
    (failBackend "service down") "Hello" "en" "es" "quota exceeded" "service down"
    (by decide) rfl rfl

/-! ### Lemmas about column assignment and `translate_dataframe` -/

theorem find?_overwrite_self (name : String) (vals : List Cell)
    (cols : List (String × List Cell)) (h : cols.any (fun p => p.1 == name) = true) :
    (cols.map (fun p => if p.1 == name then (name, vals) else p)).find?
        (fun p => p.1 == name) = some (name, vals) := by
  induction cols with
  | nil => simp at h
  | cons a rest ih =>
    rw [List.map_cons]
    by_cases ha : a.1 = name
    · have hhead : (if a.1 == name then (name, vals) else a) = (name, vals) := by
        simp [ha]
      rw [hhead, List.find?_cons_of_pos]
      simp
    · have hhead : (if a.1 == name then (name, vals) else a) = a := by
        simp [ha]
      have hrest : rest.any (fun p => p.1 == name) = true := by
        simpa [ha] using h
      rw [hhead, List.find?_cons_of_neg]
      · exact ih hrest
      · simp [ha]

theorem find?_overwrite_other (name c : String) (vals : List Cell) (hne : c ≠ name)
    (cols : List (String × List Cell)) :
    (cols.map (fun p => if p.1 == name then (name, vals) else p)).find?
        (fun p => p.1 == c)
      = cols.find? (fun p => p.1 == c) := by
  induction cols with
  | nil => simp
  | cons a rest ih =>
    rw [List.map_cons]
    by_cases ha : a.1 = name
    · have hhead : (if a.1 == name then (name, vals) else a) = (name, vals) := by
        simp [ha]
      have h1 : (((name, vals) : String × List Cell).1 == c) = false := by
        simp [Ne.symm hne]
      have h2 : (a.1 == c) = false := by
        rw [ha]
        simp [Ne.symm hne]
      rw [hhead, List.find?_cons_of_neg _ (by simp [h1]),
        List.find?_cons_of_neg _ (by simp [h2])]
      exact ih
    · have hhead : (if a.1 == name then (name, vals) else a) = a := by
        simp [ha]
      rw [hhead]
      by_cases hac : a.1 = c
      · rw [List.find?_cons_of_pos _ (by simp [hac]),
          List.find?_cons_of_pos _ (by simp [hac])]
      · rw [List.find?_cons_of_neg _ (by simp [hac]),
          List.find?_cons_of_neg _ (by simp [hac])]
        exact ih

theorem map_fst_overwrite (name : String) (vals : List Cell)
    (cols : List (String × List Cell)) :
    ((cols.map (fun p => if p.1 == name then (name, vals) else p)).map Prod.fst)
      = cols.map Prod.fst := by
  rw [List.map_map]
  apply List.map_congr_left
  intro p _
  by_cases hp1 : p.1 = name <;> simp [Function.comp, hp1]

theorem getCol_setCols_self (cols : List (String × List Cell)) (name : String)
    (vals : List Cell) :
    DataFrame.getCol (DataFrame.mk (setCols cols name vals)) name = some vals := by
  unfold DataFrame.getCol setCols
  by_cases h : cols.any (fun p => p.1 == name) = true
  · rw [if_pos h]
    rw [find?_overwrite_self name vals cols h]
    rfl
  · rw [if_neg h]
    rw [List.find?_append]
    have hnone : cols.find? (fun p => p.1 == name) = none := by
      rw [List.find?_eq_none]
      intro x hx hbeq
      exact h (List.any_eq_true.mpr ⟨x, hx, hbeq⟩)
    rw [hnone]
    simp [List.find?]

theorem getCol_setCols_other (cols : List (String × List Cell)) (name c : String)
    (vals : List Cell) (hne : c ≠ name) :
    DataFrame.getCol (DataFrame.mk (setCols cols name vals)) c
      = DataFrame.getCol (DataFrame.mk cols) c := by
  unfold DataFrame.getCol setCols
  by_cases h : cols.any (fun p => p.1 == name) = true
  · rw [if_pos h]
    rw [find?_overwrite_other name c vals hne cols]
  · rw [if_neg h]
    rw [List.find?_append]
    have htail : ([(name, vals)] : List (String × List Cell)).find?
        (fun p => p.1 == c) = none := by
      rw [List.find?_cons_of_neg _ (by simp [Ne.symm hne])]
      rfl
    rw [htail]
    simp

theorem numRows_setCols (cols : List (String × List Cell)) (name : String)
    (vals : List Cell) (hne : cols ≠ [])
    (hlen : vals.length = DataFrame.numRows (DataFrame.mk cols)) :
    DataFrame.numRows (DataFrame.mk (setCols cols name vals))
      = DataFrame.numRows (DataFrame.mk cols) := by
  cases cols with
  | nil => exact absurd rfl hne
  | cons a rest =>
    unfold setCols
    by_cases h : ((a :: rest).any (fun p => p.1 == name)) = true
    · simp only [h, if_true, List.map_cons]
      by_cases ha : a.1 = name
      · simpa [DataFrame.numRows, ha] using hlen
      · simp [DataFrame.numRows, ha]
    · simp [h, DataFrame.numRows]

theorem wf_setCols (cols : List (String × List Cell)) (name : String)
    (vals : List Cell) (hwf : DataFrame.Wf (DataFrame.mk cols)) (hne : cols ≠ [])
    (hlen : vals.length = DataFrame.numRows (DataFrame.mk cols)) :
    DataFrame.Wf (DataFrame.mk (setCols cols name vals)) := by
  intro p hp
  rw [numRows_setCols cols name vals hne hlen]
  unfold setCols at hp
  by_cases h : cols.any (fun p => p.1 == name) = true
  · rw [if_pos h] at hp
    obtain ⟨q, hq, hpq⟩ := List.mem_map.mp hp
    by_cases hq1 : q.1 = name
    · have : p = (name, vals) := by
        rw [← hpq]
        simp [hq1]
      rw [this]
      exact hlen
    · have : p = q := by
        rw [← hpq]
        simp [hq1]
      rw [this]
      exact hwf q hq
  · rw [if_neg h] at hp
    rcases List.mem_append.mp hp with hmem | hmem
    · exact hwf p hmem
    · have : p = (name, vals) := by simpa using hmem
      rw [this]
      exact hlen

/-- A successful column lookup yields an actual member of the column
list. -/
theorem getCol_mem (df : DataFrame) (name : String) (cells : List Cell)
    (h : df.getCol name = some cells) : ∃ p ∈ df.cols, p.2 = cells := by
  unfold DataFrame.getCol at h
  cases hf : df.cols.find? (fun p => p.1 == name) with
  | none => rw [hf] at h; simp at h
  | some q =>
      rw [hf] at h
      refine ⟨q, List.mem_of_find?_eq_some hf, ?_⟩
      simpa using h

/-- A successful column lookup implies the frame has at least one
column. -/
theorem getCol_ne_nil (df : DataFrame) (name : String) (cells : List Cell)
    (h : df.getCol name = some cells) : df.cols ≠ [] := by
  intro hnil
  rw [DataFrame.getCol, hnil] at h
  simp [List.find?] at h

/-- The length of a successfully looked-up column equals the row count. -/
theorem getCol_length (df : DataFrame) (name : String) (cells : List Cell)
    (hwf : df.Wf) (h : df.getCol name = some cells) :
    cells.length = df.numRows := by
  obtain ⟨p, hmem, hsnd⟩ := getCol_mem df name cells h
  rw [← hsnd]
  exact hwf p hmem

/-- Unfolding `translate_dataframe_mut` on a frame that has the chosen
column: the returned frame assigns the translated column, and the input
frame is returned unchanged. -/
theorem translate_dataframe_mut_eq (google libre : Backend) (df : DataFrame)
    (column src tgt : String) (cells : List Cell)
    (hcol : df.getCol column = some cells) :
    translate_dataframe_mut google libre df column src tgt
      = some (DataFrame.mk (setCols df.cols (column ++ "_translated")
          (translated_col google libre src tgt cells)), df) := by
  unfold translate_dataframe_mut
  simp only [hcol, fillna_empty, astype_str, List.map_map, translated_col,
    Function.comp]
  rfl

/-- Unfolding `translate_dataframe` on a frame that has the chosen
column. -/
theorem translate_dataframe_eq (google libre : Backend) (df : DataFrame)
    (column src tgt : String) (cells : List Cell)
    (hcol : df.getCol column = some cells) :
    translate_dataframe google libre df column src tgt
      = some (DataFrame.mk (setCols df.cols (column ++ "_translated")
          (translated_col google libre src tgt cells))) := by
  unfold translate_dataframe
  rw [translate_dataframe_mut_eq google libre df column src tgt cells hcol]
  rfl

/-! ### Claim theorems about the tabular operation and the history -/

/-- C5 counterexample: when the input table already contains a column named
`"<column>_translated"`, `translate_dataframe` does not add a column at
all — the output has the same column count as the input (2, not 3), so the
universally quantified claim "returns a table with exactly one added
column" fails on this input. -/
theorem translate_dataframe_added_column_cex :
    (translate_dataframe (okBackend "X") (okBackend "X") dfPre "a" "en" "es").map
        (fun o => o.cols.length) = some 2
    ∧ dfPre.cols.length = 2
    ∧ (translate_dataframe (okBackend "X") (okBackend "X") dfPre "a" "en" "es").map
        (fun o => o.cols.length) ≠ some (dfPre.cols.length + 1) := by
  refine ⟨by decide, by decide, by decide⟩

/-- C5 (amended): for every well-formed table with the chosen column
present, `translate_dataframe` returns a table with the same number of
rows, well-formed (rows in the same order: every untouched column keeps
its value list, and the new column is the row-order map of the resolver
over the chosen column), whose column `"<column>_translated"` holds at row
`i` exactly `resolve(str(table[i][column]), src, tgt)`; the column is
added at the end as exactly one new column when no column of that name
existed, and otherwise the existing column is overwritten with the column
count unchanged. -/
theorem translate_dataframe_spec (google libre : Backend) (df : DataFrame)
    (column src tgt : String) (cells : List Cell)
    (hcol : df.getCol column = some cells) (hwf : df.Wf) :
    ∃ out, translate_dataframe google libre df column src tgt = some out
      ∧ out.numRows = df.numRows
      ∧ out.Wf
      ∧ out.getCol (column ++ "_translated")
          = some (translated_col google libre src tgt cells)
      ∧ (∀ c, c ≠ column ++ "_translated" → out.getCol c = df.getCol c)
      ∧ (df.hasCol (column ++ "_translated") = false →
          out.cols = df.cols ++ [(column ++ "_translated",
            translated_col google libre src tgt cells)])
      ∧ (df.hasCol (column ++ "_translated") = true →
          out.cols.length = df.cols.length) := by
  have hlen : (translated_col google libre src tgt cells).length
      = DataFrame.numRows (DataFrame.mk df.cols) := by
    simpa [translated_col] using getCol_length df column cells hwf hcol
  have hne : df.cols ≠ [] := getCol_ne_nil df column cells hcol
  refine ⟨DataFrame.mk (setCols df.cols (column ++ "_translated")
      (translated_col google libre src tgt cells)),
    translate_dataframe_eq google libre df column src tgt cells hcol,
    ?_, ?_, ?_, ?_, ?_, ?_⟩
  · exact numRows_setCols df.cols _ _ hne hlen
  · exact wf_setCols df.cols _ _ hwf hne hlen
  · exact getCol_setCols_self df.cols _ _
  · intro c hc
    exact getCol_setCols_other df.cols _ c _ hc
  · intro hno
    have hno' : df.cols.any (fun p => p.1 == column ++ "_translated") = false := hno
    show setCols df.cols _ _ = _
    unfold setCols
    rw [if_neg (by simp [hno'])]
  · intro hyes
    have hyes' : df.cols.any (fun p => p.1 == column ++ "_translated") = true := hyes
    show (setCols df.cols _ _).length = _
    unfold setCols
    rw [if_pos hyes']
    exact List.length_map _ _

theorem translate_dataframe_spec_witness :
    ∃ out, translate_dataframe (okBackend "X") (okBackend "X") dfTwo "a" "en" "es"
        = some out
      ∧ out.numRows = dfTwo.numRows
      ∧ out.Wf
      ∧ out.getCol ("a" ++ "_translated")
          = some (translated_col (okBackend "X") (okBackend "X") "en" "es" [some "hi"])
      ∧ (∀ c, c ≠ "a" ++ "_translated" → out.getCol c = dfTwo.getCol c)
      ∧ (dfTwo.hasCol ("a" ++ "_translated") = false →
          out.cols = dfTwo.cols ++ [("a" ++ "_translated",
            translated_col (okBackend "X") (okBackend "X") "en" "es" [some "hi"])])
      ∧ (dfTwo.hasCol ("a" ++ "_translated") = true →
          out.cols.length = dfTwo.cols.length) :=
  translate_dataframe_spec (okBackend "X") (okBackend "X") dfTwo "a" "en" "es"
    [some "hi"] (by decide)
    (by intro p hp
        simp [dfTwo] at hp
        rcases hp with h | h <;> subst h <;> rfl)

/-- C6 (code bug): a missing value in the chosen column is *not* treated as
the empty string.  `astype(str)` turns the missing value into the string
`"nan"` before `fillna("")` runs, so `fillna("")` replaces nothing and the
backend is invoked with the text `"nan"`.  With an echoing primary backend
the translated cell is `"<nan>"` (the echo of `"nan"`), not `""`, and the
recorded call list of `translate_text` on `"nan"` shows the backend call
that the claim says must not happen. -/
theorem translate_dataframe_missing_value_bug :
    translate_dataframe echoBackend (failBackend "down") dfNaN "a" "en" "es"
      = some (DataFrame.mk [("a", [none]), ("a_translated", [some "<nan>"])])
    ∧ ("<nan>" : String) ≠ ""
    ∧ google_calls echoBackend (failBackend "down") "nan" "en" "es"
        = [("en", "es", "nan")] := by
  refine ⟨by decide, by decide, by decide⟩

/-- C7: `translate_dataframe` leaves every column other than
`"<column>_translated"` unchanged (same values, same row order), and the
input frame is not mutated by the call: the explicit state-passing
embedding returns the input frame exactly as it was, because the source
works on `df.copy()` (app.py line 65) and never assigns to `df`. -/
theorem translate_dataframe_frame_effect (google libre : Backend) (df : DataFrame)
    (column src tgt : String) (out fin : DataFrame)
    (h : translate_dataframe_mut google libre df column src tgt = some (out, fin)) :
    fin = df
    ∧ ∀ c, c ≠ column ++ "_translated" → out.getCol c = df.getCol c := by
  cases hcol : df.getCol column with
  | none =>
      unfold translate_dataframe_mut at h
      simp only [hcol] at h
      exact Option.noConfusion h
  | some cells =>
      rw [translate_dataframe_mut_eq google libre df column src tgt cells hcol] at h
      simp only [Option.some.injEq, Prod.mk.injEq] at h
      obtain ⟨hout, hfin⟩ := h
      constructor
      · exact hfin.symm
      · intro c hc
        rw [← hout]
        exact getCol_setCols_other df.cols _ c _ hc

theorem translate_dataframe_frame_effect_witness :
    dfTwo = dfTwo
    ∧ ∀ c, c ≠ "a" ++ "_translated" →
        DataFrame.getCol (DataFrame.mk [("a", [some "hi"]), ("b", [some "z"]),
          ("a" ++ "_translated", [some "X"])]) c = dfTwo.getCol c :=
  translate_dataframe_frame_effect (okBackend "X") (okBackend "X") dfTwo "a" "en" "es"
    (DataFrame.mk [("a", [some "hi"]), ("b", [some "z"]),
      ("a" ++ "_translated", [some "X"])])
    dfTwo (by decide)

/-- C10: when the input table already contains a column named
`"<column>_translated"`, `translate_dataframe` succeeds (no failure), keeps
the column names and the column count unchanged (no fresh name is chosen),
and that column now holds the newly translated values — the existing
column is silently overwritten. -/
theorem translate_dataframe_overwrite (google libre : Backend) (df : DataFrame)
    (column src tgt : String) (cells : List Cell)
    (hcol : df.getCol column = some cells)
    (hhas : df.hasCol (column ++ "_translated") = true) :
    ∃ out, translate_dataframe google libre df column src tgt = some out
      ∧ out.getCol (column ++ "_translated")
          = some (translated_col google libre src tgt cells)
      ∧ out.cols.length = df.cols.length
      ∧ out.cols.map Prod.fst = df.cols.map Prod.fst := by
  have hhas' : df.cols.any (fun p => p.1 == column ++ "_translated") = true := hhas
  refine ⟨DataFrame.mk (setCols df.cols (column ++ "_translated")
      (translated_col google libre src tgt cells)),
    translate_dataframe_eq google libre df column src tgt cells hcol,
    getCol_setCols_self df.cols _ _, ?_, ?_⟩
  · show (setCols df.cols _ _).length = _
    unfold setCols
    rw [if_pos hhas']
    exact List.length_map _ _
  · show (setCols df.cols _ _).map Prod.fst = _
    unfold setCols
    rw [if_pos hhas']
    exact map_fst_overwrite _ _ df.cols

theorem translate_dataframe_overwrite_witness :
    ∃ out, translate_dataframe (okBackend "X") (okBackend "X") dfPre "a" "en" "es"
        = some out
      ∧ out.getCol ("a" ++ "_translated")
          = some (translated_col (okBackend "X") (okBackend "X") "en" "es" [some "x"])
      ∧ out.cols.length = dfPre.cols.length
      ∧ out.cols.map Prod.fst = dfPre.cols.map Prod.fst :=
  translate_dataframe_overwrite (okBackend "X") (okBackend "X") dfPre "a" "en" "es"
    [some "x"] (by decide) (by decide)

/-- C8: the session history is kept most-recent-first.  Each UI-triggered
translate action whose input is not blank (this includes every successful
one) prepends exactly one `HistoryEntry` — holding the source text, the
translated text, the source-language name and the target-language name —
to the front of the history, and the explicit clear action empties the
history entirely. -/
theorem ui_step_history (google libre : Backend)
    (srcLangName tgtLangName srcCode tgtCode input : String)
    (history : List HistoryEntry) (h : is_blank input = false) :
    ui_step google libre srcLangName tgtLangName srcCode tgtCode history
        (UIEvent.translateClick input)
      = { source := input,
          translated := translate_text google libre input srcCode tgtCode,
          src := srcLangName, tgt := tgtLangName } :: history
    ∧ ui_step google libre srcLangName tgtLangName srcCode tgtCode history
        UIEvent.clearHistoryClick = [] := by
  constructor
  · simp only [ui_step]
    rw [if_neg (by simp [h])]
  · rfl

theorem ui_step_history_witness :
    ui_step (okBackend "Hola") (failBackend "down") "English" "Spanish" "en" "es" []
        (UIEvent.translateClick "Hello")
      = { source := "Hello",
          translated := translate_text (okBackend "Hola") (failBackend "down")
            "Hello" "en" "es",
          src := "English", tgt := "Spanish" } :: []
    ∧ ui_step (okBackend "Hola") (failBackend "down") "English" "Spanish" "en" "es" []
        UIEvent.clearHistoryClick = [] :=
  ui_step_history (okBackend "Hola") (failBackend "down") "English" "Spanish"
    "en" "es" "Hello" [] (by decide)

end TranslatorApp
